import Mathlib

/-!
Shallow embedding of the fragrance-inventory-service variant controller
(src/controllers/variant.controller.ts, routed by routes/variant.route.ts)
together with its mongoose models (models/variant.model.ts,
models/audit.model.ts, schema/variant.schema.ts).

Modelling conventions:
- JS numbers are modelled as integers.  The only non-integral arithmetic in
  the whole controller is the quotient (price * discountPercent) / 100, and it
  is always fed directly into Math.round; we therefore compute that round of
  the exact quotient with the integer function roundDiv below, which agrees
  with real-number round-half-up on every integer-valued input.
- The mongo store is a pair of document lists; each awaited store call of a
  handler corresponds to one primitive operation on this state.
- A mongoose session buffers its writes until commitTransaction; an aborted
  transaction discards them.  Store calls that can fail at runtime take an
  explicit failure flag so that atomicity claims quantify over every failure
  point that the source's try/catch blocks can observe.
- express's next(err) semantics are modelled per handler: handlers whose every
  error path is a `return next(err)` return `Except AppError`; handlers that
  call next(err) without returning (createVariant, updateStock,
  removeDiscountByProductId, updateDiscountByProductId) instead return the
  ordered list of all signalled errors plus the optional success response,
  because their code keeps executing after signalling an error.
-/

deriving instance DecidableEq for Except

/-- Math.round of the exact quotient a / b, for b > 0: round half up, i.e.
the floor of a / b + 1 / 2, computed as an integer floor division. -/
def roundDiv (a b : ℤ) : ℤ := Int.fdiv (2 * a + b) (2 * b)

/-- The discountPrice expression of the controller,
Math.round(price - (price * discountPercent) / 100), in exact arithmetic. -/
def newDiscountPrice (price discountPercent : ℤ) : ℤ :=
  roundDiv (100 * price - price * discountPercent) 100

/-- A variant document (models/variant.model.ts).  Schema defaults:
discountPrice 0, discountPercent 0, stock 0, isActive true. -/
structure Variant where
  id : ℕ
  productId : ℕ
  size : String
  sku : String
  price : ℤ
  discountPrice : ℤ
  discountPercent : ℤ
  stock : ℤ
  isActive : Bool
deriving DecidableEq

/-- Status enum of the audit schema (models/audit.model.ts). -/
inductive AuditStatus where
  | pending
  | committed
  | rolledback
deriving DecidableEq

/-- One entry of AuditSchema.items: the pre-mutation snapshot of a variant. -/
structure AuditItem where
  variantId : ℕ
  oldDiscountPercent : ℤ
  oldDiscountPrice : ℤ
deriving DecidableEq

/-- An audit document (models/audit.model.ts). -/
structure AuditRecord where
  operationId : String
  productIds : List ℕ
  variantCount : ℕ
  discountPercent : ℤ
  status : AuditStatus
  createdBy : Option ℕ
  items : List AuditItem
deriving DecidableEq

/-- The backing mongo database: the Variant and Audit collections. -/
structure Store where
  variants : List Variant
  audits : List AuditRecord
deriving DecidableEq

/-- AppError from utils/appError: a message plus an HTTP status code.
The spec's abstract error taxonomy maps onto concrete AppErrors, e.g.
NotFound to ("Operation not found", 404) and Conflict (invalid status
transition) to ("Operation not pending", 400). -/
structure AppError where
  message : String
  statusCode : ℕ
deriving DecidableEq

/-- Variant.findById: point read of the variant collection. -/
def Variant.findById (s : Store) (variantId : ℕ) : Option Variant :=
  s.variants.find? (fun v => v.id == variantId)

/-- Variant.find with filter productId ∈ productIds (collection order is
preserved, as mongo returns documents in natural order). -/
def Variant.findByProductIds (s : Store) (productIds : List ℕ) : List Variant :=
  s.variants.filter (fun v => productIds.contains v.productId)

/-- Audit.findOne with a filter on the (unique-indexed) operationId. -/
def Audit.findOne (s : Store) (operationId : String) : Option AuditRecord :=
  s.audits.find? (fun a => a.operationId == operationId)

/-- One updateOne entry filtered on _id with a $set update: rewrite the
variant with the given id (ids are unique, so at most one document matches). -/
def Store.setVariant (s : Store) (variantId : ℕ) (f : Variant → Variant) : Store :=
  { s with variants := s.variants.map (fun v => if v.id == variantId then f v else v) }

/-- Effect of mongoose audit.save() after mutating audit.status: an
unconditional update of the document selected by its unique operationId.
mongoose save places no guard on the previously stored status value. -/
def Store.setAuditStatus (s : Store) (operationId : String) (st : AuditStatus) : Store :=
  { s with audits := s.audits.map (fun a =>
      if a.operationId == operationId then { a with status := st } else a) }

/-- The min-0 bounds declared on the variant schema (discountPrice,
discountPercent, stock).  mongoose document save() runs these validators;
collection-level Variant.bulkWrite does not. -/
def variantValid (v : Variant) : Bool :=
  decide (0 ≤ v.discountPrice) && decide (0 ≤ v.discountPercent) && decide (0 ≤ v.stock)

/-- Effect of the bulkWrite built in prepareBulkDiscount: one updateOne per
fetched variant, setting discountPercent and the discountPrice recomputed from
that variant's current price. -/
def applyBulkDiscount (s : Store) (productIds : List ℕ) (discountPercent : ℤ) : Store :=
  { s with variants := s.variants.map (fun v =>
      if productIds.contains v.productId then
        { v with discountPercent := discountPercent,
                 discountPrice :=
                   if 0 < discountPercent then newDiscountPrice v.price discountPercent
                   else 0 }
      else v) }

/-- Effect of the bulkWrite built in rollbackBulkDiscount: one updateOne per
audit item, setting the recorded old discount fields on that variant. -/
def applyRestore (s : Store) (items : List AuditItem) : Store :=
  items.foldl (fun acc it =>
    acc.setVariant it.variantId (fun v =>
      { v with discountPercent := it.oldDiscountPercent,
               discountPrice := it.oldDiscountPrice })) s

/-- Failure points of prepareBulkDiscount's transaction: the session find, the
session Variant.bulkWrite, the session Audit.create, and commitTransaction.
Each true flag makes that awaited call throw, which the catch block turns into
abortTransaction plus a 500 AppError. -/
structure PrepareFailures where
  findFails : Bool
  bulkWriteFails : Bool
  auditCreateFails : Bool
  commitFails : Bool
deriving DecidableEq

/-- prepareBulkDiscount (controller).  freshOperationId stands for the uuidv4()
value generated inside the handler.  All four store writes are session-scoped,
so every failure path returns the store unchanged.  Audit.create also throws
(duplicate key on the unique operationId index) when the generated id
collides with an existing audit document. -/
def prepareBulkDiscount (s : Store) (internalKeyOk : Bool) (productIds : List ℕ)
    (discountPercent : ℤ) (initiatedBy : Option ℕ) (freshOperationId : String)
    (f : PrepareFailures) : Store × Except AppError (String × ℕ) :=
  if !internalKeyOk then (s, .error ⟨"Unauthorized", 403⟩)
  else if productIds.isEmpty then (s, .error ⟨"productIds required", 400⟩)
  else if discountPercent < 0 ∨ 100 < discountPercent then
    (s, .error ⟨"discountPercent must be 0..100", 400⟩)
  else if f.findFails then (s, .error ⟨"Failed preparing bulk discount", 500⟩)
  else if (Variant.findByProductIds s productIds).isEmpty then
    (s, .error ⟨"No variants found for given products", 404⟩)
  else if f.bulkWriteFails then (s, .error ⟨"Failed preparing bulk discount", 500⟩)
  else if f.auditCreateFails ∨ (Audit.findOne s freshOperationId).isSome then
    (s, .error ⟨"Failed preparing bulk discount", 500⟩)
  else if f.commitFails then (s, .error ⟨"Failed preparing bulk discount", 500⟩)
  else
    (⟨(applyBulkDiscount s productIds discountPercent).variants,
      s.audits ++ [⟨freshOperationId, productIds,
        (Variant.findByProductIds s productIds).length, discountPercent, .pending,
        initiatedBy,
        (Variant.findByProductIds s productIds).map
          (fun v => AuditItem.mk v.id v.discountPercent v.discountPrice)⟩]⟩,
      .ok (freshOperationId, (Variant.findByProductIds s productIds).length))

/-- commitBulkDiscount (controller): find the audit, reject when absent or not
pending, otherwise set status to committed via audit.save(). -/
def commitBulkDiscount (s : Store) (internalKeyOk : Bool) (operationId : String)
    (saveFails : Bool) : Store × Except AppError String :=
  if !internalKeyOk then (s, .error ⟨"Unauthorized", 403⟩)
  else if operationId == "" then (s, .error ⟨"operationId required", 400⟩)
  else
    match Audit.findOne s operationId with
    | none => (s, .error ⟨"Operation not found", 404⟩)
    | some audit =>
      if audit.status ≠ .pending then (s, .error ⟨"Operation not pending", 400⟩)
      else if saveFails then (s, .error ⟨"Internal", 500⟩)
      else (s.setAuditStatus operationId .committed, .ok "Committed")

/-- Failure points of rollbackBulkDiscount: the audit findOne, the session
Variant.bulkWrite, the (session-less) audit.save, and commitTransaction. -/
structure RollbackFailures where
  findFails : Bool
  bulkWriteFails : Bool
  auditSaveFails : Bool
  commitFails : Bool
deriving DecidableEq

/-- rollbackBulkDiscount (controller).  The variant restore bulkWrite is passed
the session, but audit.save() is not: the status write hits the store
immediately, before commitTransaction.  Hence when commitTransaction fails the
buffered variant restores are discarded while the status flip has already
persisted — the commitFails branch below reflects exactly that. -/
def rollbackBulkDiscount (s : Store) (internalKeyOk : Bool) (operationId : String)
    (f : RollbackFailures) : Store × Except AppError String :=
  if !internalKeyOk then (s, .error ⟨"Unauthorized", 403⟩)
  else if operationId == "" then (s, .error ⟨"operationId required", 400⟩)
  else if f.findFails then (s, .error ⟨"Failed rolling back bulk discount", 500⟩)
  else
    match Audit.findOne s operationId with
    | none => (s, .error ⟨"Operation not found", 404⟩)
    | some audit =>
      if audit.status ≠ .pending then (s, .error ⟨"Operation not pending", 400⟩)
      else if f.bulkWriteFails then (s, .error ⟨"Failed rolling back bulk discount", 500⟩)
      else if f.auditSaveFails then (s, .error ⟨"Failed rolling back bulk discount", 500⟩)
      else if f.commitFails then
        (s.setAuditStatus operationId .rolledback,
          .error ⟨"Failed rolling back bulk discount", 500⟩)
      else
        ((applyRestore s audit.items).setAuditStatus operationId .rolledback,
          .ok "Rolledback successfully")

/-- One element of req.body.updates in bulkUpdateStock.  A variantId of 0 and
a quantity of none model the JS-falsy / null payloads rejected by the format
check; type is the free-form mode string. -/
structure StockUpdate where
  variantId : ℕ
  quantity : Option ℤ
  type : String
deriving DecidableEq

/-- The validation loop of bulkUpdateStock: walks the updates in order against
the current (unmutated) store, returning either the first error or the list of
(variantId, newStock) pairs for the final bulkWrite. -/
def buildStockOps (s : Store) : List StockUpdate → Except AppError (List (ℕ × ℤ))
  | [] => .ok []
  | u :: rest =>
    if u.variantId == 0 ∨ u.quantity = none ∨
        ¬(u.type == "increase" ∨ u.type == "decrease" ∨ u.type == "set") then
      .error ⟨"Invalid update format", 400⟩
    else
      match Variant.findById s u.variantId with
      | none => .error ⟨"Variant not found: " ++ toString u.variantId, 404⟩
      | some v =>
        let q := u.quantity.getD 0
        if u.type == "decrease" ∧ v.stock < q then
          .error ⟨"Not enough stock to reduce for variant: " ++ toString u.variantId, 400⟩
        else
          let newStock : ℤ :=
            if u.type == "increase" then v.stock + q
            else if u.type == "decrease" then v.stock - q
            else q
          match buildStockOps s rest with
          | .error e => .error e
          | .ok ops => .ok ((u.variantId, newStock) :: ops)

/-- bulkUpdateStock (controller): every update is validated before anything is
written; the writes then go through one collection-level Variant.bulkWrite,
which bypasses the schema's min-0 stock validator. -/
def bulkUpdateStock (s : Store) (updates : List StockUpdate) :
    Store × Except AppError String :=
  if updates.isEmpty then (s, .error ⟨"Updates array is required", 400⟩)
  else
    match buildStockOps s updates with
    | .error e => (s, .error e)
    | .ok ops =>
      if ops.isEmpty then (s, .error ⟨"No valid stock updates found", 400⟩)
      else
        (ops.foldl (fun acc p => acc.setVariant p.1 (fun v => { v with stock := p.2 })) s,
          .ok "Stock updated successfully")

/-- updateStock (controller).  Neither the missing-id nor the not-found
next(err) call returns, and after a successful save the handler sends the 200
response and then unconditionally signals a further 500 AppError; the result
lists every signalled error in order next to the optional response status. -/
def updateStock (s : Store) (variantId : ℕ) (stock : ℤ) :
    Store × List AppError × Option ℕ :=
  match Variant.findById s variantId with
  | none =>
    (s, (if variantId == 0 then [⟨"Variant ID is required", 400⟩] else [])
      ++ [⟨"Variant not found", 404⟩, ⟨"Failed to update stock", 500⟩], none)
  | some v =>
    if variantValid { v with stock := v.stock + stock } then
      (s.setVariant variantId (fun _ => { v with stock := v.stock + stock }),
        (if variantId == 0 then [⟨"Variant ID is required", 400⟩] else [])
          ++ [⟨"Failed to update stock", 500⟩], some 200)
    else
      (s, (if variantId == 0 then [⟨"Variant ID is required", 400⟩] else [])
        ++ [⟨"Variant validation failed", 500⟩], none)

/-- updateDiscount (controller): single-variant discount update; every error
path returns, and the save runs the document validators. -/
def updateDiscount (s : Store) (variantId : ℕ) (discountPercent : ℤ) :
    Store × Except AppError String :=
  if discountPercent < 0 ∨ 100 < discountPercent then
    (s, .error ⟨"Discount percent must be between 0 and 100", 400⟩)
  else
    match Variant.findById s variantId with
    | none => (s, .error ⟨"Variant not found", 404⟩)
    | some v =>
      if variantValid { v with
          discountPercent := discountPercent,
          discountPrice :=
            if 0 < discountPercent then newDiscountPrice v.price discountPercent
            else 0 } then
        (s.setVariant variantId (fun _ => { v with
          discountPercent := discountPercent,
          discountPrice :=
            if 0 < discountPercent then newDiscountPrice v.price discountPercent
            else 0 }), .ok "Discount updated successfully")
      else (s, .error ⟨"Variant validation failed", 500⟩)

/-- removeDiscountByVariantId (controller): reset both discount fields to 0. -/
def removeDiscountByVariantId (s : Store) (variantId : ℕ) :
    Store × Except AppError String :=
  match Variant.findById s variantId with
  | none => (s, .error ⟨"Variant not found", 404⟩)
  | some v =>
    if variantValid { v with discountPercent := (0 : ℤ), discountPrice := (0 : ℤ) } then
      (s.setVariant variantId
        (fun _ => { v with discountPercent := (0 : ℤ), discountPrice := (0 : ℤ) }),
        .ok "Discount removed successfully")
    else (s, .error ⟨"Variant validation failed", 500⟩)

/-- The per-variant save loop shared by the by-productId discount handlers:
sequential document saves over the fetched list, stopping at the first save
whose validators reject (partial writes before that point persist). -/
def saveAll (f : Variant → Variant) : Store → List Variant → Store × Option AppError
  | s, [] => (s, none)
  | s, v :: rest =>
    if variantValid (f v) then saveAll f (s.setVariant v.id (fun _ => f v)) rest
    else (s, some ⟨"Variant validation failed", 500⟩)

/-- removeDiscountByProductId (controller).  The missing-productId and
product-not-found next(err) calls do not return (execution continues), so the
signalled errors are accumulated while the loop still runs. -/
def removeDiscountByProductId (s : Store) (productId : ℕ) (productExists : Bool) :
    Store × List AppError × Option ℕ :=
  if (Variant.findByProductIds s [productId]).isEmpty then
    (s, (if productId == 0 then [⟨"Product ID is required", 400⟩] else [])
      ++ (if productExists then [] else [⟨"Product not found", 404⟩])
      ++ [⟨"No variants found for this product", 404⟩], none)
  else
    match saveAll (fun v => { v with discountPercent := (0 : ℤ), discountPrice := (0 : ℤ) })
        s (Variant.findByProductIds s [productId]) with
    | (s', none) =>
      (s', (if productId == 0 then [⟨"Product ID is required", 400⟩] else [])
        ++ (if productExists then [] else [⟨"Product not found", 404⟩]), some 200)
    | (s', some e) =>
      (s', (if productId == 0 then [⟨"Product ID is required", 400⟩] else [])
        ++ (if productExists then [] else [⟨"Product not found", 404⟩]) ++ [e], none)

/-- updateDiscountByProductId (controller).  The id and range checks return,
but the product-not-found next(err) does not; the per-variant loop recomputes
discountPrice with the 0-percent special case, exactly as updateDiscount. -/
def updateDiscountByProductId (s : Store) (productId : ℕ) (productExists : Bool)
    (discountPercent : ℤ) : Store × List AppError × Option ℕ :=
  if productId == 0 then (s, [⟨"Product ID is required", 400⟩], none)
  else if discountPercent < 0 ∨ 100 < discountPercent then
    (s, [⟨"Discount percent must be between 0 and 100", 400⟩], none)
  else if (Variant.findByProductIds s [productId]).isEmpty then
    (s, (if productExists then [] else [⟨"Product not found", 404⟩])
      ++ [⟨"No variants found for this product", 404⟩], none)
  else
    match saveAll (fun v => { v with
        discountPercent := discountPercent,
        discountPrice :=
          if 0 < discountPercent then newDiscountPrice v.price discountPercent else 0 })
        s (Variant.findByProductIds s [productId]) with
    | (s', none) =>
      (s', (if productExists then [] else [⟨"Product not found", 404⟩]), some 200)
    | (s', some e) =>
      (s', (if productExists then [] else [⟨"Product not found", 404⟩]) ++ [e], none)

/-- bulkUpdateDiscountFromProductService (controller).  All the per-variant
saves run inside one session, so the whole loop is all-or-nothing; any input
error, thrown validation error or transaction failure surfaces as the single
AppError of the catch block.  Unlike every other discount write path, the
discountPrice assignment here has no discountPercent = 0 special case: it is
Math.round(price - discountAmount) unconditionally. -/
def bulkUpdateDiscountFromProductService (s : Store) (productIds : List ℕ)
    (discountPercent : ℤ) (txnFails : Bool) : Store × Except AppError String :=
  if productIds.isEmpty then (s, .error ⟨"Failed to update discount", 400⟩)
  else if discountPercent < 0 ∨ 100 < discountPercent then
    (s, .error ⟨"Failed to update discount", 400⟩)
  else if txnFails then (s, .error ⟨"Failed to update discount", 400⟩)
  else if (Variant.findByProductIds s productIds).all (fun v => variantValid { v with
      discountPercent := discountPercent,
      discountPrice := newDiscountPrice v.price discountPercent }) then
    ({ s with variants := s.variants.map (fun v =>
        if productIds.contains v.productId then { v with
          discountPercent := discountPercent,
          discountPrice := newDiscountPrice v.price discountPercent } else v) },
      .ok "Discount updated for all variants")
  else (s, .error ⟨"Failed to update discount", 400⟩)

/-- removeDiscountFromProductService (controller): the transactional bulk
removal; every touched variant gets discountPercent 0 and discountPrice 0. -/
def removeDiscountFromProductService (s : Store) (productIds : List ℕ)
    (txnFails : Bool) : Store × Except AppError String :=
  if productIds.isEmpty then (s, .error ⟨"Failed to remove discount", 400⟩)
  else if txnFails then (s, .error ⟨"Failed to remove discount", 400⟩)
  else if (Variant.findByProductIds s productIds).all (fun v => variantValid
      { v with discountPercent := (0 : ℤ), discountPrice := (0 : ℤ) }) then
    ({ s with variants := s.variants.map (fun v =>
        if productIds.contains v.productId then
          { v with discountPercent := (0 : ℤ), discountPrice := (0 : ℤ) } else v) },
      .ok "Discount removed for all variants")
  else (s, .error ⟨"Failed to remove discount", 400⟩)

/-- bulkRemoveDiscount (controller): one collection-level bulkWrite setting
both discount fields to 0 on every listed variantId. -/
def bulkRemoveDiscount (s : Store) (variantIds : List ℕ) :
    Store × Except AppError String :=
  if variantIds.isEmpty then (s, .error ⟨"No updates provided", 400⟩)
  else
    (variantIds.foldl (fun acc i =>
        acc.setVariant i (fun v =>
          { v with discountPercent := (0 : ℤ), discountPrice := (0 : ℤ) })) s,
      .ok "Discounts removed successfully")

/-- JS falsy test for an optional string field of the request body. -/
def falsyStr : Option String → Bool
  | none => true
  | some s => s == ""

/-- JS falsy test for an optional numeric field of the request body: both a
missing field and the number 0 are falsy. -/
def falsyNum : Option ℤ → Bool
  | none => true
  | some q => q == 0

/-- createVariant (controller).  None of its next(err) calls returns, so the
handler accumulates every signalled error and still reaches Variant.create.
The create call itself throws (and catchAsync stops the handler) when the
mongoose required validators reject (missing/empty size, missing price,
negative stock via the min-0 bound) or when the unique (productId, size)
index already holds an entry; otherwise the document is inserted with the
schema defaults and the server-generated id and sku. -/
def createVariant (s : Store) (productId : ℕ) (productExists : Bool)
    (size : Option String) (price : Option ℤ) (stock : Option ℤ)
    (freshVariantId : ℕ) (freshSku : String) : Store × List AppError × Option ℕ :=
  let errs : List AppError :=
    (if productId == 0 then [⟨"Product ID is required", 400⟩] else [])
    ++ (if productExists then [] else [⟨"Product not found", 404⟩])
    ++ (if falsyStr size ∨ falsyNum price ∨ falsyNum stock then
          [⟨"Size, Price and Stock are required", 400⟩] else [])
  let existing := s.variants.any (fun v => v.productId == productId && some v.size == size)
  let errs2 := errs ++ (if existing then [⟨"Variant already exists", 400⟩] else [])
  if size = none ∨ size = some "" ∨ price = none ∨ stock.getD 0 < 0 ∨ existing then
    (s, errs2 ++ [⟨"Variant document creation failed", 500⟩], none)
  else
    ({ s with variants := s.variants ++
        [⟨freshVariantId, productId, size.getD "", freshSku, price.getD 0, 0, 0,
          stock.getD 0, true⟩] },
      errs2, some 201)

/-- Interleaved execution of one commitBulkDiscount call and one
rollbackBulkDiscount call on the same operationId, at the granularity of the
handlers' awaited store operations, under the schedule: commit's Audit.findOne;
rollback's Audit.findOne; commit's status check and audit.save; rollback's
status check, session bulkWrite, audit.save and commitTransaction.  Each
handler's branching is exactly that of its sequential definition, applied to
the document its own findOne returned. -/
def commitRollbackRace (s : Store) (operationId : String) :
    Except AppError String × Except AppError String × Store :=
  let readC := Audit.findOne s operationId
  let readR := Audit.findOne s operationId
  let stepC : Store × Except AppError String :=
    match readC with
    | none => (s, .error ⟨"Operation not found", 404⟩)
    | some a =>
      if a.status ≠ .pending then (s, .error ⟨"Operation not pending", 400⟩)
      else (s.setAuditStatus operationId .committed, .ok "Committed")
  let stepR : Store × Except AppError String :=
    match readR with
    | none => (stepC.1, .error ⟨"Operation not found", 404⟩)
    | some a =>
      if a.status ≠ .pending then (stepC.1, .error ⟨"Operation not pending", 400⟩)
      else ((applyRestore stepC.1 a.items).setAuditStatus operationId .rolledback,
        .ok "Rolledback successfully")
  (stepC.2, stepR.2, stepR.1)

/-- A two-variant store for the stock-batch scenario: variant 1 has stock 5,
variant 2 has stock 20, no discounts. -/
def twoStockStore : Store :=
  ⟨[⟨1, 1, "50ml", "SKU1", 100, 0, 0, 5, true⟩,
    ⟨2, 1, "100ml", "SKU2", 200, 0, 0, 20, true⟩], []⟩

/-- The effect of one restore updateOne of rollbackBulkDiscount on one variant
document: if the document is the one the audit item names, both discount
fields are set back to the recorded old values. -/
def restoreStep (w : Variant) (it : AuditItem) : Variant :=
  if w.id == it.variantId then
    { w with discountPercent := it.oldDiscountPercent,
             discountPrice := it.oldDiscountPrice }
  else w

/-- The derived-field invariant of spec section 3: discountPrice reflects the
current discountPercent and price, with the round formula written, exactly as
in the spec, as round(price * (1 - discountPercent / 100)). -/
def discountInvariant (v : Variant) : Prop :=
  (0 < v.discountPercent →
    v.discountPrice = roundDiv (v.price * (100 - v.discountPercent)) 100)
  ∧ (v.discountPercent = 0 → v.discountPrice = 0)

/-- Sample one-variant store used by concrete witnesses: product 1 holds a
single 50ml variant priced 100 with no discount and stock 10. -/
def sampleStore : Store := ⟨[⟨1, 1, "50ml", "SKU1", 100, 0, 0, 10, true⟩], []⟩

/-- The three-variant scenario store of the spec: product 1 has variants
priced 100 and 200, product 2 one priced 50, all at 0 percent discount. -/
def scenarioStore : Store :=
  ⟨[⟨1, 1, "50ml", "SKU1", 100, 0, 0, 10, true⟩,
    ⟨2, 1, "100ml", "SKU2", 200, 0, 0, 10, true⟩,
    ⟨3, 2, "50ml", "SKU3", 50, 0, 0, 10, true⟩], []⟩

/-- A store holding one discounted variant and the matching pending audit
record for operation op-1, as left behind by a successful prepare. -/
def pendingStore : Store :=
  ⟨[⟨1, 1, "50ml", "SKU1", 100, 80, 20, 10, true⟩],
    [⟨"op-1", [1], 1, 20, .pending, none, [⟨1, 0, 0⟩]⟩]⟩

/-- The store-wide form of the derived-field invariant: every variant document
satisfies discountInvariant. -/
def storeDiscountInvariant (s : Store) : Prop :=
  ∀ v ∈ s.variants, discountInvariant v

/-- Consistency of one audit snapshot item with a price: its recorded old
discount fields satisfy the derivation rule for that price.  Holds for every
item captured by prepare from an invariant-satisfying variant, since prices
are immutable in this core. -/
def auditItemConsistent (price : ℤ) (it : AuditItem) : Prop :=
  (0 < it.oldDiscountPercent →
    it.oldDiscountPrice = roundDiv (price * (100 - it.oldDiscountPercent)) 100)
  ∧ (it.oldDiscountPercent = 0 → it.oldDiscountPrice = 0)

instance (v : Variant) : Decidable (discountInvariant v) := by
  unfold discountInvariant
  infer_instance

instance (s : Store) : Decidable (storeDiscountInvariant s) := by
  unfold storeDiscountInvariant
  infer_instance

instance (p : ℤ) (it : AuditItem) : Decidable (auditItemConsistent p it) := by
  unfold auditItemConsistent
  infer_instance

lemma setVariant_audits (s : Store) (i : ℕ) (f : Variant → Variant) :
    (s.setVariant i f).audits = s.audits := rfl

lemma setAuditStatus_variants (s : Store) (opId : String) (st : AuditStatus) :
    (s.setAuditStatus opId st).variants = s.variants := rfl

lemma applyBulkDiscount_audits (s : Store) (pids : List ℕ) (dp : ℤ) :
    (applyBulkDiscount s pids dp).audits = s.audits := rfl

lemma applyRestore_cons (s : Store) (it : AuditItem) (rest : List AuditItem) :
    applyRestore s (it :: rest) =
      applyRestore (s.setVariant it.variantId (fun v =>
        { v with discountPercent := it.oldDiscountPercent,
                 discountPrice := it.oldDiscountPrice })) rest := rfl

lemma applyRestore_audits (s : Store) (items : List AuditItem) :
    (applyRestore s items).audits = s.audits := by
  induction items generalizing s with
  | nil => rfl
  | cons it rest ih => rw [applyRestore_cons, ih, setVariant_audits]

/-- Case analysis of one prepareBulkDiscount run: every failure path returns
the store unchanged, and the success path returns exactly the store with the
discount applied and the single new pending audit appended (which also forces
the generated operationId to have been fresh). -/
lemma prepare_run_cases (s : Store) (keyOk : Bool) (pids : List ℕ) (dp : ℤ)
    (init : Option ℕ) (opId : String) (f : PrepareFailures) (s' : Store)
    (r : Except AppError (String × ℕ))
    (h : prepareBulkDiscount s keyOk pids dp init opId f = (s', r)) :
    (∀ e, r = .error e → s' = s)
    ∧ (∀ a n, r = .ok (a, n) →
        s' = ⟨(applyBulkDiscount s pids dp).variants,
          s.audits ++ [⟨opId, pids, (Variant.findByProductIds s pids).length, dp,
            .pending, init,
            (Variant.findByProductIds s pids).map
              (fun v => ⟨v.id, v.discountPercent, v.discountPrice⟩)⟩]⟩
        ∧ a = opId ∧ n = (Variant.findByProductIds s pids).length
        ∧ Audit.findOne s opId = none) := by
  unfold prepareBulkDiscount at h
  split at h
  · cases h; exact ⟨fun e he => rfl, fun a n hn => by cases hn⟩
  · split at h
    · cases h; exact ⟨fun e he => rfl, fun a n hn => by cases hn⟩
    · split at h
      · cases h; exact ⟨fun e he => rfl, fun a n hn => by cases hn⟩
      · split at h
        · cases h; exact ⟨fun e he => rfl, fun a n hn => by cases hn⟩
        · split at h
          · cases h; exact ⟨fun e he => rfl, fun a n hn => by cases hn⟩
          · split at h
            · cases h; exact ⟨fun e he => rfl, fun a n hn => by cases hn⟩
            · split at h
              · cases h; exact ⟨fun e he => rfl, fun a n hn => by cases hn⟩
              · rename_i hnc
                split at h
                · cases h; exact ⟨fun e he => rfl, fun a n hn => by cases hn⟩
                · cases h
                  refine ⟨?_, ?_⟩
                  · intro e he
                    cases he
                  · intro a n hn
                    cases hn
                    refine ⟨rfl, rfl, rfl, ?_⟩
                    cases hfind : Audit.findOne s opId with
                    | none => rfl
                    | some x =>
                      exact absurd (Or.inr (by rw [hfind]; rfl)) hnc

/-- C1: for every prepareBulkDiscount call that passes input validation
(internal key accepted, non-empty productIds, discountPercent within 0..100),
the discount batch write and the insertion of the pending AuditRecord are
atomic: whichever store call fails afterwards, the store is returned
unchanged (so no AuditRecord with the new operationId exists and no variant's
discount fields moved), and on success the result store is exactly the input
store with the discount applied to every matched variant and the single new
pending AuditRecord appended — both effects together. -/
theorem prepare_atomic
    (s : Store) (productIds : List ℕ) (discountPercent : ℤ) (initiatedBy : Option ℕ)
    (opId : String) (f : PrepareFailures) (s' : Store) (r : Except AppError (String × ℕ))
    (hids : productIds.isEmpty = false)
    (hdp : ¬(discountPercent < 0 ∨ 100 < discountPercent))
    (h : prepareBulkDiscount s true productIds discountPercent initiatedBy opId f = (s', r)) :
    (∀ e, r = .error e → s' = s)
    ∧ (∀ a n, r = .ok (a, n) →
        s' = ⟨(applyBulkDiscount s productIds discountPercent).variants,
          s.audits ++ [⟨opId, productIds, (Variant.findByProductIds s productIds).length,
            discountPercent, .pending, initiatedBy,
            (Variant.findByProductIds s productIds).map
              (fun v => ⟨v.id, v.discountPercent, v.discountPrice⟩)⟩]⟩
        ∧ a = opId ∧ n = (Variant.findByProductIds s productIds).length) := by
  have hc := prepare_run_cases s true productIds discountPercent initiatedBy opId f s' r h
  exact ⟨hc.1, fun a n hn => ⟨(hc.2 a n hn).1, (hc.2 a n hn).2.1, (hc.2 a n hn).2.2.1⟩⟩

/-- Witness for prepare_atomic: on the sample store, a run whose
commitTransaction fails leaves the store untouched, and a clean run applies
the 20 percent discount and appends the pending audit. -/
theorem prepare_atomic_witness :
    (([1] : List ℕ).isEmpty = false)
    ∧ (prepareBulkDiscount sampleStore true [1] 20 none "op-1"
        ⟨false, false, false, true⟩).1 = sampleStore
    ∧ (prepareBulkDiscount sampleStore true [1] 20 none "op-1"
        ⟨false, false, false, false⟩).1 =
      ⟨[⟨1, 1, "50ml", "SKU1", 100, 80, 20, 10, true⟩],
        [⟨"op-1", [1], 1, 20, .pending, none, [⟨1, 0, 0⟩]⟩]⟩ := by
  refine ⟨rfl, ?_, ?_⟩
  · exact (prepare_atomic sampleStore [1] 20 none "op-1" ⟨false, false, false, true⟩
      (prepareBulkDiscount sampleStore true [1] 20 none "op-1" ⟨false, false, false, true⟩).1
      (prepareBulkDiscount sampleStore true [1] 20 none "op-1" ⟨false, false, false, true⟩).2
      (by decide) (by decide) rfl).1 ⟨"Failed preparing bulk discount", 500⟩ (by decide)
  · exact ((prepare_atomic sampleStore [1] 20 none "op-1" ⟨false, false, false, false⟩
      (prepareBulkDiscount sampleStore true [1] 20 none "op-1" ⟨false, false, false, false⟩).1
      (prepareBulkDiscount sampleStore true [1] 20 none "op-1" ⟨false, false, false, false⟩).2
      (by decide) (by decide) rfl).2 "op-1" 1 (by decide)).1.trans (by decide)

lemma findOne_setAuditStatus (s : Store) (opId : String) (st : AuditStatus) :
    Audit.findOne (s.setAuditStatus opId st) opId =
      (Audit.findOne s opId).map (fun a => { a with status := st }) := by
  unfold Audit.findOne Store.setAuditStatus
  induction s.audits with
  | nil => rfl
  | cons a rest ih =>
    by_cases h : a.operationId == opId
    · simp [List.find?, h]
    · simp only [List.map, List.find?]
      rw [if_neg h]
      simp only [h, Bool.false_eq_true, if_false]
      exact ih

/-- C6: every successful prepare returns the freshly generated operationId and
the count of matched variants, appends one pending AuditRecord whose items
snapshot the pre-mutation discount fields of every matched variant, and
recomputes every matched variant's discountPrice from its current price; on
the spec scenario (prices 100, 200, 50 at 0 percent, discount 20) it returns
variantCount 3, discount prices 80, 160 and 40, and items [(0,0),(0,0),(0,0)]. -/
theorem prepare_returns_and_snapshot :
    (∀ (s : Store) (keyOk : Bool) (pids : List ℕ) (dp : ℤ) (init : Option ℕ)
        (opId : String) (f : PrepareFailures) (s' : Store) (a : String) (n : ℕ),
      prepareBulkDiscount s keyOk pids dp init opId f = (s', .ok (a, n)) →
      a = opId ∧ n = (Variant.findByProductIds s pids).length
      ∧ Audit.findOne s opId = none
      ∧ s' = ⟨(applyBulkDiscount s pids dp).variants,
          s.audits ++ [⟨opId, pids, (Variant.findByProductIds s pids).length, dp,
            .pending, init,
            (Variant.findByProductIds s pids).map
              (fun v => ⟨v.id, v.discountPercent, v.discountPrice⟩)⟩]⟩)
    ∧ prepareBulkDiscount scenarioStore true [1, 2] 20 none "op-9"
        ⟨false, false, false, false⟩ =
      (⟨[⟨1, 1, "50ml", "SKU1", 100, 80, 20, 10, true⟩,
          ⟨2, 1, "100ml", "SKU2", 200, 160, 20, 10, true⟩,
          ⟨3, 2, "50ml", "SKU3", 50, 40, 20, 10, true⟩],
        [⟨"op-9", [1, 2], 3, 20, .pending, none, [⟨1, 0, 0⟩, ⟨2, 0, 0⟩, ⟨3, 0, 0⟩]⟩]⟩,
        .ok ("op-9", 3)) := by
  constructor
  · intro s keyOk pids dp init opId f s' a n h
    have hc := (prepare_run_cases s keyOk pids dp init opId f s' (.ok (a, n)) h).2 a n rfl
    exact ⟨hc.2.1, hc.2.2.1, hc.2.2.2, hc.1⟩
  · decide

/-- Witness for prepare_returns_and_snapshot: the general clause applied to
the concrete scenario run. -/
theorem prepare_returns_and_snapshot_witness :
    ("op-9" : String) = "op-9"
    ∧ (3 : ℕ) = (Variant.findByProductIds scenarioStore [1, 2]).length
    ∧ Audit.findOne scenarioStore "op-9" = none
    ∧ (prepareBulkDiscount scenarioStore true [1, 2] 20 none "op-9"
        ⟨false, false, false, false⟩).1 =
      ⟨(applyBulkDiscount scenarioStore [1, 2] 20).variants,
        scenarioStore.audits ++ [⟨"op-9", [1, 2],
          (Variant.findByProductIds scenarioStore [1, 2]).length, 20, .pending, none,
          (Variant.findByProductIds scenarioStore [1, 2]).map
            (fun v => ⟨v.id, v.discountPercent, v.discountPrice⟩)⟩]⟩ :=
  prepare_returns_and_snapshot.1 scenarioStore true [1, 2] 20 none "op-9"
    ⟨false, false, false, false⟩
    (prepareBulkDiscount scenarioStore true [1, 2] 20 none "op-9"
      ⟨false, false, false, false⟩).1
    "op-9" 3 (by decide)

/-- C2: commitBulkDiscount returns the NotFound error and leaves the store
unchanged when no audit carries the operationId; returns the Conflict error
("Operation not pending", the invalid-status-transition rejection) and
mutates nothing when the record is not pending — hence a second commit or a
commit after rollback is always rejected; and on a pending record it succeeds,
flips only that audit's status to committed (a terminal state: both commit
and rollback reject afterwards) and changes no variant data. -/
theorem commit_state_machine (s : Store) (opId : String) (a : AuditRecord)
    (hop : (opId == "") = false) :
    (Audit.findOne s opId = none →
      ∀ sf, commitBulkDiscount s true opId sf = (s, .error ⟨"Operation not found", 404⟩))
    ∧ (Audit.findOne s opId = some a → a.status ≠ .pending →
      ∀ sf, commitBulkDiscount s true opId sf = (s, .error ⟨"Operation not pending", 400⟩))
    ∧ (Audit.findOne s opId = some a → a.status = .pending →
      commitBulkDiscount s true opId false =
        (s.setAuditStatus opId .committed, .ok "Committed")
      ∧ (s.setAuditStatus opId .committed).variants = s.variants
      ∧ (∀ sf, commitBulkDiscount (s.setAuditStatus opId .committed) true opId sf =
          (s.setAuditStatus opId .committed, .error ⟨"Operation not pending", 400⟩))
      ∧ (∀ g2 g3 g4, rollbackBulkDiscount (s.setAuditStatus opId .committed) true opId
            ⟨false, g2, g3, g4⟩ =
          (s.setAuditStatus opId .committed, .error ⟨"Operation not pending", 400⟩))) := by
  refine ⟨?_, ?_, ?_⟩
  · intro hnone sf
    unfold commitBulkDiscount
    simp [hop, hnone]
  · intro hsome hnp sf
    unfold commitBulkDiscount
    simp [hop, hsome, hnp]
  · intro hsome hp
    refine ⟨?_, rfl, ?_, ?_⟩
    · unfold commitBulkDiscount
      simp [hop, hsome, hp]
    · intro sf
      unfold commitBulkDiscount
      rw [findOne_setAuditStatus, hsome]
      simp [hop]
    · intro g2 g3 g4
      unfold rollbackBulkDiscount
      rw [findOne_setAuditStatus, hsome]
      simp [hop]

/-- Witness for commit_state_machine: on the pending store, commit of an
unknown id is NotFound; commit of op-1 succeeds and flips the status; a second
commit is rejected with the Conflict error. -/
theorem commit_state_machine_witness :
    commitBulkDiscount pendingStore true "op-2" false =
      (pendingStore, .error ⟨"Operation not found", 404⟩)
    ∧ commitBulkDiscount pendingStore true "op-1" false =
      (pendingStore.setAuditStatus "op-1" .committed, .ok "Committed")
    ∧ commitBulkDiscount (pendingStore.setAuditStatus "op-1" .committed) true "op-1" false =
      (pendingStore.setAuditStatus "op-1" .committed,
        .error ⟨"Operation not pending", 400⟩)
    ∧ rollbackBulkDiscount (pendingStore.setAuditStatus "op-1" .committed) true "op-1"
        ⟨false, false, false, false⟩ =
      (pendingStore.setAuditStatus "op-1" .committed,
        .error ⟨"Operation not pending", 400⟩) := by
  refine ⟨?_, ?_, ?_, ?_⟩
  · exact (commit_state_machine pendingStore "op-2"
      ⟨"op-1", [1], 1, 20, .pending, none, [⟨1, 0, 0⟩]⟩ (by decide)).1 (by decide) false
  · exact ((commit_state_machine pendingStore "op-1"
      ⟨"op-1", [1], 1, 20, .pending, none, [⟨1, 0, 0⟩]⟩ (by decide)).2.2 (by decide) rfl).1
  · exact (((commit_state_machine pendingStore "op-1"
      ⟨"op-1", [1], 1, 20, .pending, none, [⟨1, 0, 0⟩]⟩
        (by decide)).2.2 (by decide) rfl).2.2.1 false)
  · exact (((commit_state_machine pendingStore "op-1"
      ⟨"op-1", [1], 1, 20, .pending, none, [⟨1, 0, 0⟩]⟩
        (by decide)).2.2 (by decide) rfl).2.2.2 false false false)


lemma findOne_applyRestore (s : Store) (items : List AuditItem) (opId : String) :
    Audit.findOne (applyRestore s items) opId = Audit.findOne s opId := by
  unfold Audit.findOne
  rw [applyRestore_audits]

/-- C7 counterexample: on the pending store, the interleaving in which both
handlers perform their Audit.findOne before either writes lets the commit and
the rollback both run to success — neither caller observes the Conflict
error, refuting the exactly-one-wins claim and with it the existence of a
status-guarded compare-and-set in the code. -/
theorem commit_rollback_race_both_succeed :
    (commitRollbackRace pendingStore "op-1").1 = .ok "Committed"
    ∧ (commitRollbackRace pendingStore "op-1").2.1 = .ok "Rolledback successfully" := by
  decide

/-- C7 amended: the transition is an unguarded find-then-save, not a
compare-and-set; when the two calls are serialized (each sees the other's
completed write), whichever of commit/rollback runs first on a pending record
succeeds and the loser observes the Conflict error, in both orders. -/
theorem commit_rollback_sequential_exclusive (s : Store) (opId : String)
    (a : AuditRecord) (hop : (opId == "") = false)
    (ha : Audit.findOne s opId = some a) (hp : a.status = .pending) :
    ((commitBulkDiscount s true opId false).2 = .ok "Committed"
      ∧ ∀ g2 g3 g4,
        rollbackBulkDiscount (commitBulkDiscount s true opId false).1 true opId
            ⟨false, g2, g3, g4⟩ =
          ((commitBulkDiscount s true opId false).1,
            .error ⟨"Operation not pending", 400⟩))
    ∧ ((rollbackBulkDiscount s true opId ⟨false, false, false, false⟩).2 =
        .ok "Rolledback successfully"
      ∧ ∀ sf,
        commitBulkDiscount
            (rollbackBulkDiscount s true opId ⟨false, false, false, false⟩).1 true opId sf =
          ((rollbackBulkDiscount s true opId ⟨false, false, false, false⟩).1,
            .error ⟨"Operation not pending", 400⟩)) := by
  have hcommit : commitBulkDiscount s true opId false =
      (s.setAuditStatus opId .committed, .ok "Committed") := by
    unfold commitBulkDiscount
    simp [hop, ha, hp]
  have hroll : rollbackBulkDiscount s true opId ⟨false, false, false, false⟩ =
      ((applyRestore s a.items).setAuditStatus opId .rolledback,
        .ok "Rolledback successfully") := by
    unfold rollbackBulkDiscount
    simp [hop, ha, hp]
  constructor
  · constructor
    · rw [hcommit]
    · intro g2 g3 g4
      rw [hcommit]
      unfold rollbackBulkDiscount
      rw [findOne_setAuditStatus, ha]
      simp [hop]
  · constructor
    · rw [hroll]
    · intro sf
      rw [hroll]
      unfold commitBulkDiscount
      rw [findOne_setAuditStatus, findOne_applyRestore, ha]
      simp [hop]

/-- Witness for commit_rollback_sequential_exclusive: the serialized order
commit-then-rollback on the pending store. -/
theorem commit_rollback_sequential_exclusive_witness :
    (commitBulkDiscount pendingStore true "op-1" false).2 = .ok "Committed"
    ∧ rollbackBulkDiscount (commitBulkDiscount pendingStore true "op-1" false).1 true "op-1"
        ⟨false, false, false, false⟩ =
      ((commitBulkDiscount pendingStore true "op-1" false).1,
        .error ⟨"Operation not pending", 400⟩) := by
  have h := commit_rollback_sequential_exclusive pendingStore "op-1"
    ⟨"op-1", [1], 1, 20, .pending, none, [⟨1, 0, 0⟩]⟩ (by decide) (by decide) rfl
  exact ⟨h.1.1, h.1.2 false false false⟩

/-- C3: evaluation of the rollback defect.  audit.save() is issued without the
transaction session, so when commitTransaction fails the status flip has
already persisted while the buffered variant restores are discarded: the run
returns the 500 error, yet the store now holds status rolledback next to a
variant still carrying the 20 percent discount — a partial state the claim
says must never be observable. -/
theorem rollback_commit_failure_partial_state :
    rollbackBulkDiscount pendingStore true "op-1" ⟨false, false, false, true⟩ =
      (⟨[⟨1, 1, "50ml", "SKU1", 100, 80, 20, 10, true⟩],
        [⟨"op-1", [1], 1, 20, .rolledback, none, [⟨1, 0, 0⟩]⟩]⟩,
        .error ⟨"Failed rolling back bulk discount", 500⟩)
    ∧ (rollbackBulkDiscount pendingStore true "op-1" ⟨false, false, false, true⟩).1
        ≠ pendingStore := by
  decide

lemma applyRestore_variants_map (s : Store) (items : List AuditItem) :
    (applyRestore s items).variants =
      s.variants.map (fun v => items.foldl restoreStep v) := by
  induction items generalizing s with
  | nil =>
    show s.variants = _
    simp
  | cons it rest ih =>
    rw [applyRestore_cons, ih]
    show (s.variants.map _).map _ = _
    rw [List.map_map]
    rfl

lemma restore_foldl_no_match (v : Variant) (items : List AuditItem)
    (h : ∀ it ∈ items, ¬(v.id = it.variantId)) :
    items.foldl restoreStep v = v := by
  induction items with
  | nil => rfl
  | cons it rest ih =>
    have hne : (v.id == it.variantId) = false := by
      simp only [beq_eq_false_iff_ne, ne_eq]
      exact h it (List.mem_cons_self it rest)
    rw [List.foldl_cons]
    rw [show restoreStep v it = v from by simp [restoreStep, hne]]
    exact ih (fun i hi => h i (List.mem_cons_of_mem it hi))

lemma restore_foldl_single (v : Variant) (it : AuditItem) (items : List AuditItem)
    (hmem : it ∈ items) (hnodup : (items.map (fun i => i.variantId)).Nodup)
    (hid : v.id = it.variantId) :
    items.foldl restoreStep v =
      { v with discountPercent := it.oldDiscountPercent,
               discountPrice := it.oldDiscountPrice } := by
  induction items with
  | nil => cases hmem
  | cons j rest ih =>
    rw [List.map_cons, List.nodup_cons] at hnodup
    rw [List.foldl_cons]
    rcases List.mem_cons.mp hmem with hj | hrest
    · subst hj
      rw [show restoreStep v it =
          { v with discountPercent := it.oldDiscountPercent,
                   discountPrice := it.oldDiscountPrice } from by
        simp [restoreStep, hid]]
      apply restore_foldl_no_match
      intro i hi hvi
      exact hnodup.1 ((hid.symm.trans hvi) ▸ List.mem_map_of_mem _ hi)
    · have hjne : ¬(v.id = j.variantId) := by
        intro hv
        exact hnodup.1 ((hid.symm.trans hv) ▸ List.mem_map_of_mem _ hrest)
      have hf : (v.id == j.variantId) = false := by
        simp only [beq_eq_false_iff_ne, ne_eq]
        exact hjne
      rw [show restoreStep v j = v from by simp [restoreStep, hf]]
      exact ih hrest hnodup.2

lemma rollback_ok_spec (s : Store) (opId : String) (g : RollbackFailures)
    (s' : Store) (msg : String)
    (h : rollbackBulkDiscount s true opId g = (s', .ok msg)) :
    ∃ a, Audit.findOne s opId = some a ∧ a.status = .pending
      ∧ s' = (applyRestore s a.items).setAuditStatus opId .rolledback := by
  unfold rollbackBulkDiscount at h
  split at h
  · exact nomatch congrArg Prod.snd h
  · split at h
    · exact nomatch congrArg Prod.snd h
    · split at h
      · exact nomatch congrArg Prod.snd h
      · split at h
        · exact nomatch congrArg Prod.snd h
        · rename_i a heq
          split at h
          · exact nomatch congrArg Prod.snd h
          · rename_i hnp
            split at h
            · exact nomatch congrArg Prod.snd h
            · split at h
              · exact nomatch congrArg Prod.snd h
              · split at h
                · exact nomatch congrArg Prod.snd h
                · cases h
                  exact ⟨a, heq, of_not_not hnp, rfl⟩

lemma find?_snoc_of_none (audits : List AuditRecord) (a : AuditRecord) (opId : String)
    (h : audits.find? (fun x => x.operationId == opId) = none) :
    (audits ++ [a]).find? (fun x => x.operationId == opId) =
      if a.operationId == opId then some a else none := by
  induction audits with
  | nil =>
    cases ha : (a.operationId == opId) with
    | false => simp [List.find?, ha]
    | true => simp [List.find?, ha]
  | cons b rest ih =>
    cases hb : (b.operationId == opId) with
    | true =>
      rw [List.find?_cons_of_pos] at h
      · cases h
      · exact hb
    | false =>
      rw [List.cons_append]
      rw [List.find?_cons_of_neg] at h
      · rw [List.find?_cons_of_neg]
        · exact ih h
        · simp [hb]
      · simp [hb]

/-- C4: rollback fidelity.  If prepare succeeded on store s0 creating the
audit for opId, and rollback later succeeds against any store s2 in which
that audit row is unchanged — no matter what interim writes hit the variants
in between — then every variant named in the audit items ends with exactly
the discountPercent and discountPrice captured from s0 at prepare time. -/
theorem rollback_restores_prepare_snapshot
    (s0 : Store) (pids : List ℕ) (dp : ℤ) (init : Option ℕ) (opId : String)
    (f : PrepareFailures) (s1 : Store) (ra : String) (rn : ℕ)
    (s2 s3 : Store) (g : RollbackFailures) (msg : String)
    (hprep : prepareBulkDiscount s0 true pids dp init opId f = (s1, .ok (ra, rn)))
    (hsame : Audit.findOne s2 opId = Audit.findOne s1 opId)
    (hroll : rollbackBulkDiscount s2 true opId g = (s3, .ok msg))
    (hnodup : ((Variant.findByProductIds s0 pids).map (fun v => v.id)).Nodup) :
    ∀ v ∈ Variant.findByProductIds s0 pids, ∀ w ∈ s2.variants, w.id = v.id →
      { w with discountPercent := v.discountPercent,
               discountPrice := v.discountPrice } ∈ s3.variants := by
  obtain ⟨hs1, -, -, hfresh⟩ :=
    (prepare_run_cases s0 true pids dp init opId f s1 (.ok (ra, rn)) hprep).2 ra rn rfl
  have hfind1 : Audit.findOne s1 opId =
      some ⟨opId, pids, (Variant.findByProductIds s0 pids).length, dp, .pending, init,
        (Variant.findByProductIds s0 pids).map
          (fun v => ⟨v.id, v.discountPercent, v.discountPrice⟩)⟩ := by
    rw [hs1]
    show (s0.audits ++ [_]).find? _ = _
    rw [find?_snoc_of_none]
    · simp
    · exact hfresh
  obtain ⟨a, ha2, hpend, hs3⟩ := rollback_ok_spec s2 opId g s3 msg hroll
  rw [hsame, hfind1] at ha2
  injection ha2 with ha2
  subst ha2
  intro v hv w hw hid
  have hvars : s3.variants = s2.variants.map (fun x => List.foldl restoreStep x
      ((Variant.findByProductIds s0 pids).map
        (fun u => ⟨u.id, u.discountPercent, u.discountPrice⟩))) := by
    rw [hs3, setAuditStatus_variants, applyRestore_variants_map]
  have hitem : (⟨v.id, v.discountPercent, v.discountPrice⟩ : AuditItem) ∈
      (Variant.findByProductIds s0 pids).map
        (fun u => ⟨u.id, u.discountPercent, u.discountPrice⟩) :=
    List.mem_map_of_mem _ hv
  have hnodup2 : (((Variant.findByProductIds s0 pids).map
      (fun u => (⟨u.id, u.discountPercent, u.discountPrice⟩ : AuditItem))).map
        (fun i => i.variantId)).Nodup := by
    rw [List.map_map]
    exact hnodup
  have hfold := restore_foldl_single w ⟨v.id, v.discountPercent, v.discountPrice⟩
    ((Variant.findByProductIds s0 pids).map
      (fun u => ⟨u.id, u.discountPercent, u.discountPrice⟩)) hitem hnodup2 hid
  rw [hvars]
  exact hfold ▸ List.mem_map_of_mem _ hw

/-- Witness for rollback_restores_prepare_snapshot: prepare runs on the sample
store, an interim write then changes the variant's discount to 45 percent (and
its stock to 7); rollback still forces the discount fields back to the 0/0
captured at prepare time. -/
theorem rollback_restores_prepare_snapshot_witness :
    (⟨1, 1, "50ml", "SKU1", 100, 0, 0, 7, true⟩ : Variant) ∈
      (rollbackBulkDiscount
        ⟨[⟨1, 1, "50ml", "SKU1", 100, 55, 45, 7, true⟩],
          [⟨"op-1", [1], 1, 20, .pending, none, [⟨1, 0, 0⟩]⟩]⟩
        true "op-1" ⟨false, false, false, false⟩).1.variants :=
  rollback_restores_prepare_snapshot sampleStore [1] 20 none "op-1"
    ⟨false, false, false, false⟩
    (prepareBulkDiscount sampleStore true [1] 20 none "op-1"
      ⟨false, false, false, false⟩).1 "op-1" 1
    ⟨[⟨1, 1, "50ml", "SKU1", 100, 55, 45, 7, true⟩],
      [⟨"op-1", [1], 1, 20, .pending, none, [⟨1, 0, 0⟩]⟩]⟩
    (rollbackBulkDiscount
      ⟨[⟨1, 1, "50ml", "SKU1", 100, 55, 45, 7, true⟩],
        [⟨"op-1", [1], 1, 20, .pending, none, [⟨1, 0, 0⟩]⟩]⟩
      true "op-1" ⟨false, false, false, false⟩).1
    ⟨false, false, false, false⟩ "Rolledback successfully"
    (by decide) (by decide) (by decide) (by decide)
    ⟨1, 1, "50ml", "SKU1", 100, 0, 0, 10, true⟩ (by decide)
    ⟨1, 1, "50ml", "SKU1", 100, 55, 45, 7, true⟩ (by decide) (by decide)

lemma buildStockOps_underflow (s : Store) (updates : List StockUpdate)
    (h : ∃ u ∈ updates, (u.variantId == 0) = false ∧ u.quantity ≠ none ∧
      u.type = "decrease" ∧ ∃ v, Variant.findById s u.variantId = some v ∧
        v.stock < u.quantity.getD 0) :
    ∃ e, buildStockOps s updates = .error e := by
  induction updates with
  | nil =>
    obtain ⟨u, hu, -⟩ := h
    cases hu
  | cons u0 rest ih =>
    simp only [buildStockOps]
    split
    · exact ⟨⟨"Invalid update format", 400⟩, rfl⟩
    · rename_i hvalid
      cases hfind : Variant.findById s u0.variantId with
      | none =>
        exact ⟨⟨"Variant not found: " ++ toString u0.variantId, 404⟩, rfl⟩
      | some v0 =>
        dsimp only
        split
        · exact ⟨⟨"Not enough stock to reduce for variant: " ++ toString u0.variantId,
            400⟩, rfl⟩
        · rename_i hnoUnder
          obtain ⟨u, hu, hid, hq, htype, v, hv, hlt⟩ := h
          rcases List.mem_cons.mp hu with h0 | hrest
          · exfalso
            subst h0
            rw [hfind] at hv
            injection hv with hv
            subst hv
            exact hnoUnder ⟨by rw [htype]; rfl, hlt⟩
          · obtain ⟨e, he⟩ := ih ⟨u, hrest, hid, hq, htype, v, hv, hlt⟩
            rw [he]
            exact ⟨e, rfl⟩

/-- C8: stock-batch atomicity.  First clause: whenever bulkUpdateStock returns
an error, the store is unchanged — every item is validated before anything is
written, so no partial effect of the batch is observable.  Second clause: if
any single decrease item would take its variant's current stock below zero,
the whole request returns an error and writes nothing.  Third clause, the spec
scenario: a two-item batch whose second item decreases a stock-5 variant by 10
fails with the InsufficientStock error naming that variant, and neither item's
stock changes. -/
theorem bulk_stock_underflow_atomic :
    (∀ (s : Store) (updates : List StockUpdate) (s' : Store) (r : Except AppError String),
      bulkUpdateStock s updates = (s', r) → ∀ e, r = .error e → s' = s)
    ∧ (∀ (s : Store) (updates : List StockUpdate),
      (∃ u ∈ updates, (u.variantId == 0) = false ∧ u.quantity ≠ none ∧
        u.type = "decrease" ∧ ∃ v, Variant.findById s u.variantId = some v ∧
          v.stock < u.quantity.getD 0) →
      (∃ e, (bulkUpdateStock s updates).2 = .error e)
      ∧ (bulkUpdateStock s updates).1 = s)
    ∧ bulkUpdateStock twoStockStore
        [⟨2, some 3, "increase"⟩, ⟨1, some 10, "decrease"⟩] =
      (twoStockStore, .error ⟨"Not enough stock to reduce for variant: 1", 400⟩) := by
  refine ⟨?_, ?_, by decide⟩
  · intro s updates s' r h e he
    subst he
    unfold bulkUpdateStock at h
    split at h
    · cases h
      rfl
    · split at h
      · cases h
        rfl
      · split at h
        · cases h
          rfl
        · cases h
  · intro s updates hex
    have hne : updates.isEmpty = false := by
      obtain ⟨u, hu, -⟩ := hex
      cases updates with
      | nil => cases hu
      | cons a l => rfl
    obtain ⟨e, he⟩ := buildStockOps_underflow s updates hex
    unfold bulkUpdateStock
    rw [hne]
    simp only [Bool.false_eq_true, if_false, he]
    exact ⟨⟨e, by trivial⟩, by trivial⟩

/-- Witness for bulk_stock_underflow_atomic: the underflow clause applied to
the concrete two-item batch on the two-variant store. -/
theorem bulk_stock_underflow_atomic_witness :
    (∃ e, (bulkUpdateStock twoStockStore
        [⟨2, some 3, "increase"⟩, ⟨1, some 10, "decrease"⟩]).2 = .error e)
    ∧ (bulkUpdateStock twoStockStore
        [⟨2, some 3, "increase"⟩, ⟨1, some 10, "decrease"⟩]).1 = twoStockStore :=
  bulk_stock_underflow_atomic.2.1 twoStockStore
    [⟨2, some 3, "increase"⟩, ⟨1, some 10, "decrease"⟩]
    ⟨⟨1, some 10, "decrease"⟩, by decide,
      ⟨by decide, by decide, rfl,
        ⟨⟨1, 1, "50ml", "SKU1", 100, 0, 0, 5, true⟩, by decide, by decide⟩⟩⟩

/-- C9: evaluation of the continue-after-error defect.  First conjunct:
createVariant with body size "100ml", price 250, stock 0 — a request the
handler itself rejects by signalling "Size, Price and Stock are required"
(stock 0 is JS-falsy) — still executes Variant.create, inserts the document
and answers 201: the signalled error list is non-empty while the store grew.
Second conjunct: updateStock persists and acknowledges a successful update
(200 response, stock 10 + 5 = 15) and then still signals the unconditional
trailing 500 AppError. -/
theorem continue_after_error_evaluated :
    (createVariant sampleStore 1 true (some "100ml") (some 250) (some 0) 7 "SKU9" =
      (⟨[⟨1, 1, "50ml", "SKU1", 100, 0, 0, 10, true⟩,
          ⟨7, 1, "100ml", "SKU9", 250, 0, 0, 0, true⟩], []⟩,
        [⟨"Size, Price and Stock are required", 400⟩], some 201))
    ∧ (createVariant sampleStore 1 true (some "100ml") (some 250) (some 0) 7 "SKU9").1.variants.length
        = sampleStore.variants.length + 1
    ∧ updateStock sampleStore 1 5 =
      (⟨[⟨1, 1, "50ml", "SKU1", 100, 0, 0, 15, true⟩], []⟩,
        [⟨"Failed to update stock", 500⟩], some 200) := by
  decide

/-- C10: evaluation of the negative-stock defect.  bulkUpdateStock with a
single set-mode item of quantity -5 succeeds (Variant.bulkWrite bypasses the
schema's min-0 stock validator) and persists stock -5, violating the
stock ≥ 0 invariant declared by the variant schema. -/
theorem bulk_set_negative_stock_persisted :
    bulkUpdateStock sampleStore [⟨1, some (-5), "set"⟩] =
      (⟨[⟨1, 1, "50ml", "SKU1", 100, 0, 0, -5, true⟩], []⟩,
        .ok "Stock updated successfully")
    ∧ ∃ v ∈ (bulkUpdateStock sampleStore [⟨1, some (-5), "set"⟩]).1.variants,
        v.stock < 0 := by
  decide

lemma newDiscountPrice_eq (p d : ℤ) :
    newDiscountPrice p d = roundDiv (p * (100 - d)) 100 := by
  unfold newDiscountPrice
  congr 1
  ring

lemma discountInvariant_update (v : Variant) (d : ℤ) :
    discountInvariant
      { v with discountPercent := d,
               discountPrice := if 0 < d then newDiscountPrice v.price d else 0 } := by
  constructor
  · intro hd
    have hd' : 0 < d := hd
    show (if 0 < d then newDiscountPrice v.price d else 0) = roundDiv (v.price * (100 - d)) 100
    rw [if_pos hd', newDiscountPrice_eq]
  · intro hd
    have hd' : d = 0 := hd
    show (if 0 < d then newDiscountPrice v.price d else 0) = 0
    rw [if_neg (by omega)]

lemma discountInvariant_zero (v : Variant) :
    discountInvariant { v with discountPercent := (0 : ℤ), discountPrice := (0 : ℤ) } := by
  constructor
  · intro hd
    exact absurd (show (0 : ℤ) < 0 from hd) (by omega)
  · intro _
    rfl

lemma discountInvariant_pos (v : Variant) (d : ℤ) (hd : 0 < d) :
    discountInvariant
      { v with discountPercent := d,
               discountPrice := newDiscountPrice v.price d } := by
  constructor
  · intro _
    show newDiscountPrice v.price d = roundDiv (v.price * (100 - d)) 100
    rw [newDiscountPrice_eq]
  · intro h0
    exact absurd (show d = 0 from h0) (by omega)

lemma discountInvariant_stock (v : Variant) (q : ℤ) (h : discountInvariant v) :
    discountInvariant { v with stock := q } := h

lemma storeInv_setVariant (s : Store) (vid : ℕ) (f : Variant → Variant)
    (hs : storeDiscountInvariant s)
    (hf : ∀ v ∈ s.variants, discountInvariant (f v)) :
    storeDiscountInvariant (s.setVariant vid f) := by
  intro w hw
  rcases List.mem_map.mp hw with ⟨v, hv, hw'⟩
  subst hw'
  split
  · exact hf v hv
  · exact hs v hv

lemma storeInv_applyBulkDiscount (s : Store) (pids : List ℕ) (d : ℤ)
    (hs : storeDiscountInvariant s) :
    storeDiscountInvariant (applyBulkDiscount s pids d) := by
  intro w hw
  rcases List.mem_map.mp hw with ⟨v, hv, hw'⟩
  subst hw'
  split
  · exact discountInvariant_update v d
  · exact hs v hv

lemma restoreStep_inv (w : Variant) (it : AuditItem)
    (hw : discountInvariant w)
    (hit : it.variantId = w.id → auditItemConsistent w.price it) :
    discountInvariant (restoreStep w it) := by
  unfold restoreStep
  split
  · rename_i heq
    have hc := hit (eq_of_beq heq).symm
    exact ⟨fun h0 => hc.1 h0, fun h0 => hc.2 h0⟩
  · exact hw

lemma restore_fold_inv (items : List AuditItem) (w : Variant)
    (hw : discountInvariant w)
    (hOK : ∀ it ∈ items, it.variantId = w.id → auditItemConsistent w.price it) :
    discountInvariant (items.foldl restoreStep w) := by
  induction items generalizing w with
  | nil => exact hw
  | cons it rest ih =>
    rw [List.foldl_cons]
    have hid : (restoreStep w it).id = w.id := by
      unfold restoreStep
      split <;> rfl
    have hpr : (restoreStep w it).price = w.price := by
      unfold restoreStep
      split <;> rfl
    apply ih
    · exact restoreStep_inv w it hw (hOK it (List.mem_cons_self it rest))
    · intro j hj hjid
      rw [hpr]
      rw [hid] at hjid
      exact hOK j (List.mem_cons_of_mem it hj) hjid

lemma storeInv_applyRestore (s : Store) (items : List AuditItem)
    (hs : storeDiscountInvariant s)
    (hOK : ∀ it ∈ items, ∀ v ∈ s.variants, it.variantId = v.id →
      auditItemConsistent v.price it) :
    storeDiscountInvariant (applyRestore s items) := by
  intro w hw
  rw [show (applyRestore s items).variants = _ from applyRestore_variants_map s items] at hw
  rcases List.mem_map.mp hw with ⟨v, hv, hw'⟩
  subst hw'
  exact restore_fold_inv items v (hs v hv) (fun it hit hjid => hOK it hit v hv hjid)

lemma saveAll_inv (f : Variant → Variant) (l : List Variant) (s : Store)
    (hs : storeDiscountInvariant s)
    (hf : ∀ v, discountInvariant (f v)) :
    storeDiscountInvariant (saveAll f s l).1 := by
  induction l generalizing s with
  | nil => exact hs
  | cons v rest ih =>
    simp only [saveAll]
    split
    · exact ih _ (storeInv_setVariant s v.id _ hs (fun u _ => hf v))
    · exact hs

lemma updateDiscount_inv (s : Store) (vid : ℕ) (d : ℤ) (s' : Store)
    (r : Except AppError String) (h : updateDiscount s vid d = (s', r))
    (hs : storeDiscountInvariant s) : storeDiscountInvariant s' := by
  unfold updateDiscount at h
  split at h
  · cases h
    exact hs
  · split at h
    · cases h
      exact hs
    · rename_i v heq
      split at h
      · rename_i hd
        split at h
        · cases h
          exact storeInv_setVariant s vid _ hs
            (fun u _ => discountInvariant_pos v d hd)
        · cases h
          exact hs
      · rename_i hd
        split at h
        · cases h
          refine storeInv_setVariant s vid _ hs ?_
          intro u _
          exact ⟨fun h0 => absurd (show 0 < d from h0) hd, fun _ => rfl⟩
        · cases h
          exact hs

lemma removeDiscountByVariantId_inv (s : Store) (vid : ℕ) (s' : Store)
    (r : Except AppError String) (h : removeDiscountByVariantId s vid = (s', r))
    (hs : storeDiscountInvariant s) : storeDiscountInvariant s' := by
  unfold removeDiscountByVariantId at h
  split at h
  · cases h
    exact hs
  · rename_i v heq
    split at h
    · cases h
      exact storeInv_setVariant s vid _ hs (fun u _ => discountInvariant_zero v)
    · cases h
      exact hs

lemma removeDiscountByProductId_inv (s : Store) (pid : ℕ) (pe : Bool)
    (s' : Store) (errs : List AppError) (resp : Option ℕ)
    (h : removeDiscountByProductId s pid pe = (s', errs, resp))
    (hs : storeDiscountInvariant s) : storeDiscountInvariant s' := by
  unfold removeDiscountByProductId at h
  split at h
  · cases h
    exact hs
  · split at h
    · rename_i s2 heq
      cases h
      have hinv := saveAll_inv _ (Variant.findByProductIds s [pid]) s hs
        (fun v => discountInvariant_zero v)
      rw [heq] at hinv
      exact hinv
    · rename_i s2 e heq
      cases h
      have hinv := saveAll_inv _ (Variant.findByProductIds s [pid]) s hs
        (fun v => discountInvariant_zero v)
      rw [heq] at hinv
      exact hinv

lemma updateDiscountByProductId_inv (s : Store) (pid : ℕ) (pe : Bool) (d : ℤ)
    (s' : Store) (errs : List AppError) (resp : Option ℕ)
    (h : updateDiscountByProductId s pid pe d = (s', errs, resp))
    (hs : storeDiscountInvariant s) : storeDiscountInvariant s' := by
  unfold updateDiscountByProductId at h
  split at h
  · cases h
    exact hs
  · split at h
    · cases h
      exact hs
    · split at h
      · cases h
        exact hs
      · split at h
        · rename_i s2 heq
          cases h
          have hinv := saveAll_inv _ (Variant.findByProductIds s [pid]) s hs
            (fun v => discountInvariant_update v d)
          rw [heq] at hinv
          exact hinv
        · rename_i s2 e heq
          cases h
          have hinv := saveAll_inv _ (Variant.findByProductIds s [pid]) s hs
            (fun v => discountInvariant_update v d)
          rw [heq] at hinv
          exact hinv

lemma bulkUpdateDiscountService_inv (s : Store) (pids : List ℕ) (d : ℤ) (tf : Bool)
    (s' : Store) (r : Except AppError String) (hd : 0 < d)
    (h : bulkUpdateDiscountFromProductService s pids d tf = (s', r))
    (hs : storeDiscountInvariant s) : storeDiscountInvariant s' := by
  unfold bulkUpdateDiscountFromProductService at h
  split at h
  · cases h
    exact hs
  · split at h
    · cases h
      exact hs
    · split at h
      · cases h
        exact hs
      · split at h
        · cases h
          intro w hw
          rcases List.mem_map.mp hw with ⟨v, hv, hw'⟩
          subst hw'
          split
          · exact discountInvariant_pos v d hd
          · exact hs v hv
        · cases h
          exact hs

lemma removeDiscountService_inv (s : Store) (pids : List ℕ) (tf : Bool)
    (s' : Store) (r : Except AppError String)
    (h : removeDiscountFromProductService s pids tf = (s', r))
    (hs : storeDiscountInvariant s) : storeDiscountInvariant s' := by
  unfold removeDiscountFromProductService at h
  split at h
  · cases h
    exact hs
  · split at h
    · cases h
      exact hs
    · split at h
      · cases h
        intro w hw
        rcases List.mem_map.mp hw with ⟨v, hv, hw'⟩
        subst hw'
        split
        · exact discountInvariant_zero v
        · exact hs v hv
      · cases h
        exact hs

lemma storeInv_fold_removeDiscount (ids : List ℕ) (s : Store)
    (hs : storeDiscountInvariant s) :
    storeDiscountInvariant (ids.foldl (fun acc i => acc.setVariant i (fun v =>
      { v with discountPercent := (0 : ℤ), discountPrice := (0 : ℤ) })) s) := by
  induction ids generalizing s with
  | nil => exact hs
  | cons i rest ih =>
    rw [List.foldl_cons]
    exact ih _ (storeInv_setVariant s i _ hs (fun v _ => discountInvariant_zero v))

lemma bulkRemoveDiscount_inv (s : Store) (ids : List ℕ) (s' : Store)
    (r : Except AppError String) (h : bulkRemoveDiscount s ids = (s', r))
    (hs : storeDiscountInvariant s) : storeDiscountInvariant s' := by
  unfold bulkRemoveDiscount at h
  split at h
  · cases h
    exact hs
  · cases h
    exact storeInv_fold_removeDiscount ids s hs

lemma storeInv_fold_stock (ops : List (ℕ × ℤ)) (s : Store)
    (hs : storeDiscountInvariant s) :
    storeDiscountInvariant (ops.foldl (fun acc p => acc.setVariant p.1 (fun v =>
      { v with stock := p.2 })) s) := by
  induction ops generalizing s with
  | nil => exact hs
  | cons p rest ih =>
    rw [List.foldl_cons]
    exact ih _ (storeInv_setVariant s p.1 _ hs
      (fun v hv => discountInvariant_stock v p.2 (hs v hv)))

lemma bulkUpdateStock_inv (s : Store) (updates : List StockUpdate) (s' : Store)
    (r : Except AppError String) (h : bulkUpdateStock s updates = (s', r))
    (hs : storeDiscountInvariant s) : storeDiscountInvariant s' := by
  unfold bulkUpdateStock at h
  split at h
  · cases h
    exact hs
  · split at h
    · cases h
      exact hs
    · rename_i ops hops
      split at h
      · cases h
        exact hs
      · cases h
        exact storeInv_fold_stock ops s hs

lemma updateStock_inv (s : Store) (vid : ℕ) (q : ℤ) (s' : Store)
    (errs : List AppError) (resp : Option ℕ)
    (h : updateStock s vid q = (s', errs, resp))
    (hs : storeDiscountInvariant s) : storeDiscountInvariant s' := by
  unfold updateStock at h
  split at h
  · cases h
    exact hs
  · rename_i v heq
    split at h
    · cases h
      refine storeInv_setVariant s vid _ hs ?_
      intro u _
      exact discountInvariant_stock v _ (hs v (List.mem_of_find?_eq_some heq))
    · cases h
      exact hs

lemma prepare_inv (s : Store) (keyOk : Bool) (pids : List ℕ) (dp : ℤ)
    (init : Option ℕ) (opId : String) (f : PrepareFailures) (s' : Store)
    (r : Except AppError (String × ℕ))
    (h : prepareBulkDiscount s keyOk pids dp init opId f = (s', r))
    (hs : storeDiscountInvariant s) : storeDiscountInvariant s' := by
  cases r with
  | error e =>
    rw [(prepare_run_cases s keyOk pids dp init opId f s' _ h).1 e rfl]
    exact hs
  | ok p =>
    obtain ⟨a, n⟩ := p
    have hsp := (prepare_run_cases s keyOk pids dp init opId f s' _ h).2 a n rfl
    rw [hsp.1]
    intro w hw
    exact storeInv_applyBulkDiscount s pids dp hs w hw

lemma rollback_inv (s : Store) (opId : String) (g : RollbackFailures) (s' : Store)
    (r : Except AppError String)
    (h : rollbackBulkDiscount s true opId g = (s', r))
    (hs : storeDiscountInvariant s)
    (hOK : ∀ a, Audit.findOne s opId = some a → ∀ it ∈ a.items, ∀ v ∈ s.variants,
      it.variantId = v.id → auditItemConsistent v.price it) :
    storeDiscountInvariant s' := by
  unfold rollbackBulkDiscount at h
  split at h
  · cases h
    exact hs
  · split at h
    · cases h
      exact hs
    · split at h
      · cases h
        exact hs
      · split at h
        · cases h
          exact hs
        · rename_i a heq
          split at h
          · cases h
            exact hs
          · split at h
            · cases h
              exact hs
            · split at h
              · cases h
                exact hs
              · split at h
                · cases h
                  intro w hw
                  exact hs w hw
                · cases h
                  intro w hw
                  exact storeInv_applyRestore s a.items hs (hOK a heq) w hw

/-- C5 counterexample: bulkUpdateDiscountFromProductService at discountPercent
0 succeeds but sets discountPrice to Math.round(price - 0) = price instead of
0 (its assignment has no zero-percent special case), so the resulting variant
(discountPercent 0, discountPrice 100) violates the derived-field invariant:
a successful mutation of the service after which discountPrice is neither the
derivation for a positive percent nor 0. -/
theorem bulk_discount_zero_percent_counterexample :
    (bulkUpdateDiscountFromProductService sampleStore [1] 0 false).2 =
      .ok "Discount updated for all variants"
    ∧ (bulkUpdateDiscountFromProductService sampleStore [1] 0 false).1.variants =
      [⟨1, 1, "50ml", "SKU1", 100, 100, 0, 10, true⟩]
    ∧ ¬ storeDiscountInvariant
        (bulkUpdateDiscountFromProductService sampleStore [1] 0 false).1 := by
  decide

/-- C5 amended: after every successful mutation of the listed write paths the
store-wide derived-field invariant (discountPrice = round(price * (1 -
discountPercent / 100)) when discountPercent > 0, else 0) is preserved — for
the single-item discount update, the discount removals by variant and by
product (single and transactional bulk), the collection-level bulk removal,
saga prepare, saga rollback (whose restored snapshot values satisfy the
derivation against the variants' immutable prices, as captured by prepare),
and the stock update paths (which never touch the discount fields) — with the
one exception the counterexample forces: the bulk discount apply
(bulkUpdateDiscountFromProductService) guarantees the invariant only for
discountPercent > 0, because at 0 it writes discountPrice = round(price). -/
theorem discount_price_invariant_amended :
    (∀ (s : Store) (vid : ℕ) (d : ℤ) (s' : Store) (r : Except AppError String),
      updateDiscount s vid d = (s', r) →
      storeDiscountInvariant s → storeDiscountInvariant s')
    ∧ (∀ (s : Store) (vid : ℕ) (s' : Store) (r : Except AppError String),
      removeDiscountByVariantId s vid = (s', r) →
      storeDiscountInvariant s → storeDiscountInvariant s')
    ∧ (∀ (s : Store) (pid : ℕ) (pe : Bool) (s' : Store) (errs : List AppError)
        (resp : Option ℕ),
      removeDiscountByProductId s pid pe = (s', errs, resp) →
      storeDiscountInvariant s → storeDiscountInvariant s')
    ∧ (∀ (s : Store) (pid : ℕ) (pe : Bool) (d : ℤ) (s' : Store)
        (errs : List AppError) (resp : Option ℕ),
      updateDiscountByProductId s pid pe d = (s', errs, resp) →
      storeDiscountInvariant s → storeDiscountInvariant s')
    ∧ (∀ (s : Store) (pids : List ℕ) (d : ℤ) (tf : Bool) (s' : Store)
        (r : Except AppError String), 0 < d →
      bulkUpdateDiscountFromProductService s pids d tf = (s', r) →
      storeDiscountInvariant s → storeDiscountInvariant s')
    ∧ (∀ (s : Store) (pids : List ℕ) (tf : Bool) (s' : Store)
        (r : Except AppError String),
      removeDiscountFromProductService s pids tf = (s', r) →
      storeDiscountInvariant s → storeDiscountInvariant s')
    ∧ (∀ (s : Store) (ids : List ℕ) (s' : Store) (r : Except AppError String),
      bulkRemoveDiscount s ids = (s', r) →
      storeDiscountInvariant s → storeDiscountInvariant s')
    ∧ (∀ (s : Store) (keyOk : Bool) (pids : List ℕ) (dp : ℤ) (init : Option ℕ)
        (opId : String) (f : PrepareFailures) (s' : Store)
        (r : Except AppError (String × ℕ)),
      prepareBulkDiscount s keyOk pids dp init opId f = (s', r) →
      storeDiscountInvariant s → storeDiscountInvariant s')
    ∧ (∀ (s : Store) (opId : String) (g : RollbackFailures) (s' : Store)
        (r : Except AppError String),
      rollbackBulkDiscount s true opId g = (s', r) →
      (∀ a, Audit.findOne s opId = some a → ∀ it ∈ a.items, ∀ v ∈ s.variants,
        it.variantId = v.id → auditItemConsistent v.price it) →
      storeDiscountInvariant s → storeDiscountInvariant s')
    ∧ (∀ (s : Store) (vid : ℕ) (q : ℤ) (s' : Store) (errs : List AppError)
        (resp : Option ℕ),
      updateStock s vid q = (s', errs, resp) →
      storeDiscountInvariant s → storeDiscountInvariant s')
    ∧ (∀ (s : Store) (updates : List StockUpdate) (s' : Store)
        (r : Except AppError String),
      bulkUpdateStock s updates = (s', r) →
      storeDiscountInvariant s → storeDiscountInvariant s') := by
  refine ⟨?_, ?_, ?_, ?_, ?_, ?_, ?_, ?_, ?_, ?_, ?_⟩
  · intro s vid d s' r h hs
    exact updateDiscount_inv s vid d s' r h hs
  · intro s vid s' r h hs
    exact removeDiscountByVariantId_inv s vid s' r h hs
  · intro s pid pe s' errs resp h hs
    exact removeDiscountByProductId_inv s pid pe s' errs resp h hs
  · intro s pid pe d s' errs resp h hs
    exact updateDiscountByProductId_inv s pid pe d s' errs resp h hs
  · intro s pids d tf s' r hd h hs
    exact bulkUpdateDiscountService_inv s pids d tf s' r hd h hs
  · intro s pids tf s' r h hs
    exact removeDiscountService_inv s pids tf s' r h hs
  · intro s ids s' r h hs
    exact bulkRemoveDiscount_inv s ids s' r h hs
  · intro s keyOk pids dp init opId f s' r h hs
    exact prepare_inv s keyOk pids dp init opId f s' r h hs
  · intro s opId g s' r h hOK hs
    exact rollback_inv s opId g s' r h hs hOK
  · intro s vid q s' errs resp h hs
    exact updateStock_inv s vid q s' errs resp h hs
  · intro s updates s' r h hs
    exact bulkUpdateStock_inv s updates s' r h hs

/-- Witness for discount_price_invariant_amended: the single-item update
clause at 30 percent and the bulk-apply clause at 20 percent on the sample
store, both yielding invariant-satisfying stores. -/
theorem discount_price_invariant_amended_witness :
    storeDiscountInvariant (updateDiscount sampleStore 1 30).1
    ∧ storeDiscountInvariant
        (bulkUpdateDiscountFromProductService sampleStore [1] 20 false).1 :=
  ⟨discount_price_invariant_amended.1 sampleStore 1 30
      (updateDiscount sampleStore 1 30).1 (updateDiscount sampleStore 1 30).2
      rfl (by decide),
    discount_price_invariant_amended.2.2.2.2.1 sampleStore [1] 20 false
      (bulkUpdateDiscountFromProductService sampleStore [1] 20 false).1
      (bulkUpdateDiscountFromProductService sampleStore [1] 20 false).2
      (by decide) rfl (by decide)⟩
